import Mathlib

/-!
Verification of the multi-module interactive session server
(rust-servers: PTY multiplexer, voice capture + ASR pipeline, router).

The Rust sources are shallowly embedded: pure functions become Lean
functions over exact arithmetic (`f32`/`f64` samples are modelled as
rationals or reals), stateful handlers become explicit state-passing
functions, external effects (audio devices, websocket sends, ASR network
calls) become oracle parameters, and fallible code returns `Except`.
-/

set_option maxHeartbeats 1000000

namespace SessionServer

/-! ## Voice configuration model (src/rust-servers/src/voice/config.rs) -/

/-- ASR provider kind (enum ASRProvider). -/
inductive ASRProvider
  | qwen
  | doubao
  | sensevoice
  deriving DecidableEq, Repr

/-- ASR mode (enum ASRMode): websocket realtime or one-shot HTTP upload. -/
inductive ASRMode
  | realtime
  | http
  deriving DecidableEq, Repr

/-- Audio compression level (enum AudioCompressionLevel). -/
inductive AudioCompressionLevel
  | original
  | medium
  | minimum
  deriving DecidableEq, Repr

/-- Configuration error (enum ConfigError). -/
inductive ConfigError
  | missingApiKey (field : String)
  | unsupportedMode (provider : String) (mode : String)
  | invalidConfig (msg : String)
  deriving DecidableEq, Repr

/-- Per-provider ASR configuration (struct ASRProviderConfig). -/
structure ASRProviderConfig where
  provider : ASRProvider
  mode : ASRMode
  dashscope_api_key : Option String
  app_id : Option String
  access_token : Option String
  siliconflow_api_key : Option String
  deriving DecidableEq, Repr

/-- The credential test used throughout `ASRProviderConfig::validate`:
`key.as_ref().map_or(true, |k| k.is_empty())`. -/
def credMissing : Option String → Bool
  | none => true
  | some k => k.isEmpty

/-- `ASRProviderConfig::validate` (config.rs lines 128-157), translated
branch for branch. -/
def ASRProviderConfig.validate (c : ASRProviderConfig) : Except ConfigError Unit :=
  match c.provider with
  | .qwen =>
      if credMissing c.dashscope_api_key then
        .error (.missingApiKey "dashscope_api_key")
      else .ok ()
  | .doubao =>
      if credMissing c.app_id then
        .error (.missingApiKey "app_id")
      else if credMissing c.access_token then
        .error (.missingApiKey "access_token")
      else .ok ()
  | .sensevoice =>
      if credMissing c.siliconflow_api_key then
        .error (.missingApiKey "siliconflow_api_key")
      else if c.mode ≠ ASRMode.http then
        .error (.unsupportedMode "sensevoice" (if c.mode = ASRMode.realtime then "realtime" else "http"))
      else .ok ()

/-- Full ASR configuration (struct ASRConfig). -/
structure ASRConfig where
  primary : ASRProviderConfig
  fallback : Option ASRProviderConfig
  enable_fallback : Bool
  enable_audio_feedback : Bool
  recording_device : Option String
  audio_compression : AudioCompressionLevel
  deriving DecidableEq, Repr

/-- `ASRConfig::validate` (config.rs lines 212-218): primary first, then
the fallback when present. -/
def ASRConfig.validate (c : ASRConfig) : Except ConfigError Unit := do
  c.primary.validate
  match c.fallback with
  | some fb => fb.validate
  | none => pure ()

/-- Spec-side characterisation of a valid provider config, written from
the claim: the provider has its own non-empty credentials and the
provider/mode pair is supported (SenseVoice mandates HTTP). -/
def providerConfigValidSpec (c : ASRProviderConfig) : Prop :=
  match c.provider with
  | .qwen => ∃ k, c.dashscope_api_key = some k ∧ k ≠ ""
  | .doubao =>
      (∃ k, c.app_id = some k ∧ k ≠ "") ∧ (∃ k, c.access_token = some k ∧ k ≠ "")
  | .sensevoice =>
      (∃ k, c.siliconflow_api_key = some k ∧ k ≠ "") ∧ c.mode = ASRMode.http

/-! ## Audio DSP primitives (src/rust-servers/src/voice/audio/utils.rs)

Samples are `f32` in the source; they are embedded as exact real numbers.
Purely rational helpers (channel mixing, resampling, the integer sample
conversions) are polymorphic over a linear ordered field so the same
definition can be run on `ℚ` and reasoned about on `ℝ`. -/

/-- AGC target RMS (constant AGC_TARGET_RMS = 0.10). -/
noncomputable def AGC_TARGET_RMS : ℝ := 1/10

/-- AGC maximum gain (constant AGC_MAX_GAIN = 5.0). -/
noncomputable def AGC_MAX_GAIN : ℝ := 5

/-- AGC minimum gain (constant AGC_MIN_GAIN = 0.1). -/
noncomputable def AGC_MIN_GAIN : ℝ := 1/10

/-- AGC noise floor (constant AGC_NOISE_FLOOR = 0.003). -/
noncomputable def AGC_NOISE_FLOOR : ℝ := 3/1000

/-- VAD threshold (constant VAD_VOICE_THRESHOLD = AGC_NOISE_FLOOR). -/
noncomputable def VAD_VOICE_THRESHOLD : ℝ := AGC_NOISE_FLOOR

/-- UI level gain (constant AUDIO_LEVEL_GAIN = 8.0). -/
noncomputable def AUDIO_LEVEL_GAIN : ℝ := 8

noncomputable def SMOOTH_RISE_NEW : ℝ := 8/10
noncomputable def SMOOTH_RISE_OLD : ℝ := 2/10
noncomputable def SMOOTH_FALL_NEW : ℝ := 6/10
noncomputable def SMOOTH_FALL_OLD : ℝ := 4/10

/-- `calculate_rms` (utils.rs lines 124-131): root mean square, 0 on
empty input. -/
noncomputable def calculate_rms (samples : List ℝ) : ℝ :=
  if samples.isEmpty then 0
  else Real.sqrt ((samples.map fun s => s ^ 2).sum / samples.length)

/-- `calculate_audio_level` (utils.rs lines 136-144): sqrt companding of
`min(rms * 8, 1)`, clamped into the unit interval. -/
noncomputable def calculate_audio_level (samples : List ℝ) : ℝ :=
  if samples.isEmpty then 0
  else min (max (Real.sqrt (min (calculate_rms samples * AUDIO_LEVEL_GAIN) 1)) 0) 1

/-- `smooth_level` (utils.rs lines 147-153): asymmetric IIR smoothing. -/
noncomputable def smooth_level (current target : ℝ) : ℝ :=
  if target > current then current * SMOOTH_RISE_OLD + target * SMOOTH_RISE_NEW
  else current * SMOOTH_FALL_OLD + target * SMOOTH_FALL_NEW

/-- `generate_waveform` (utils.rs lines 156-180): N per-chunk UI levels,
the last chunk absorbing the remainder; a signal shorter than N bars
yields one global level replicated. -/
noncomputable def generate_waveform (samples : List ℝ) (num_bars : ℕ) : List ℝ :=
  if samples.isEmpty ∨ num_bars = 0 then List.replicate num_bars 0
  else
    let chunk_size := samples.length / num_bars
    if chunk_size = 0 then List.replicate num_bars (calculate_audio_level samples)
    else
      (List.range num_bars).map fun i =>
        let start := i * chunk_size
        let stop := if i = num_bars - 1 then samples.length else (i + 1) * chunk_size
        calculate_audio_level ((samples.drop start).take (stop - start))

/-- `is_voice_active` (utils.rs lines 183-185): RMS strictly above the
VAD threshold. -/
noncomputable def is_voice_active (samples : List ℝ) : Prop :=
  calculate_rms samples > VAD_VOICE_THRESHOLD

/-- `calculate_peak` (utils.rs lines 201-207): maximum absolute sample,
0 on empty input (`max_by` over absolute values; folding `max` with 0 is
equivalent because every absolute value is nonnegative). -/
noncomputable def calculate_peak (samples : List ℝ) : ℝ :=
  (samples.map fun s => |s|).foldr max 0

/-- `apply_agc` (utils.rs lines 79-103): block AGC with smoothed gain and
tanh soft clipping. Returns the processed block and the updated gain. -/
noncomputable def apply_agc (samples : List ℝ) (current_gain : ℝ) : List ℝ × ℝ :=
  if samples.isEmpty then (samples, current_gain)
  else
    let rms := calculate_rms samples
    let target_gain := if rms < AGC_NOISE_FLOOR then 1
      else min (max (AGC_TARGET_RMS / rms) AGC_MIN_GAIN) AGC_MAX_GAIN
    let alpha : ℝ := if target_gain < current_gain then 5/10 else 1/10
    let new_gain := current_gain * (1 - alpha) + target_gain * alpha
    (samples.map fun s => Real.tanh (s * new_gain), new_gain)

/-- `calculate_duration_ms` (utils.rs lines 193-198). -/
def calculate_duration_ms (sample_count : ℕ) (sample_rate : ℕ) (channels : ℕ) : ℕ :=
  if sample_rate = 0 ∨ channels = 0 then 0
  else sample_count * 1000 / (sample_rate * channels)

/-- `resolve_compression_sample_rate` (utils.rs lines 221-228): the
target rate of the compression level, capped at the device rate. -/
def resolve_compression_sample_rate (device_sample_rate : ℕ)
    (level : AudioCompressionLevel) : ℕ :=
  let target := match level with
    | .original => device_sample_rate
    | .medium => 24000
    | .minimum => 16000
  min target device_sample_rate

/-! ## Sample conversion, mono mix, resample
(src/rust-servers/src/voice/audio/recorder.rs lines 372-434) -/

/-- `convert_i16_to_f32` (recorder.rs lines 372-375): divide each `i16`
sample by `i16::MAX = 32767`. -/
def convert_i16_to_f32 {α : Type} [LinearOrderedField α] (data : List ℤ) : List α :=
  data.map fun (s : ℤ) => (s : α) / 32767

/-- `convert_u16_to_f32` (recorder.rs lines 377-382): subtract 32768 then
divide by 32768. -/
def convert_u16_to_f32 {α : Type} [LinearOrderedField α] (data : List ℕ) : List α :=
  data.map fun (s : ℕ) => ((s : α) - 32768) / 32768

/-- `to_mono` (recorder.rs lines 391-409): pass-through for one channel,
otherwise the arithmetic mean of each complete interleaved frame. -/
def to_mono {α : Type} [LinearOrderedField α] (input : List α) (channels : ℕ) : List α :=
  if channels = 1 then input
  else
    (List.range (input.length / channels)).map fun i =>
      ((List.range channels).map fun ch => input.getD (i * channels + ch) 0).sum / channels

/-- The loop body of `resample` (recorder.rs lines 420-430): the sample
at output index `i`, linearly interpolated between the floor index and
the next index (clamped to the last sample). `unwrap_or(0.0)` on the
ceiling read is `getD _ 0`. -/
def resamplePoint {α : Type} [LinearOrderedField α] [FloorSemiring α]
    (input : List α) (ratio : α) (i : ℕ) : α :=
  let src_idx : α := (i : α) * ratio
  let idx_floor : ℕ := ⌊src_idx⌋₊
  let idx_ceil : ℕ := min (idx_floor + 1) (input.length - 1)
  let frac : α := src_idx - (idx_floor : α)
  input.getD idx_floor 0 * (1 - frac) + input.getD idx_ceil 0 * frac

/-- `resample` (recorder.rs lines 411-434): linear interpolation between
the two nearest input samples; pass-through when the rates coincide. The
push is guarded by `idx_floor < input.len()`, hence the `filterMap`. -/
def resample {α : Type} [LinearOrderedField α] [FloorSemiring α]
    (input : List α) (from_rate to_rate : ℕ) : List α :=
  if from_rate = to_rate then input
  else
    let ratio : α := (from_rate : α) / (to_rate : α)
    let output_len : ℕ := ⌊(input.length : α) / ratio⌋₊
    (List.range output_len).filterMap fun (i : ℕ) =>
      if ⌊(i : α) * ratio⌋₊ < input.length then some (resamplePoint input ratio i)
      else none

/-! ## Audio data (src/rust-servers/src/voice/audio/mod.rs) -/

/-- Target sample rate for the ASR API (constant TARGET_SAMPLE_RATE). -/
def TARGET_SAMPLE_RATE : ℕ := 16000

/-- AGC block size in samples (constant AGC_CHUNK_SAMPLES). -/
def AGC_CHUNK_SAMPLES : ℕ := 3200

/-- struct AudioData, polymorphic in the sample type (f32 in the source). -/
structure AudioData (α : Type) where
  samples : List α
  sample_rate : ℕ
  channels : ℕ
  duration_ms : ℕ
  deriving DecidableEq, Repr

/-- `AudioData::new` (audio/mod.rs lines 88-101): derives the duration
from the sample count, rate and channel count. -/
def AudioData.new {α : Type} (samples : List α) (sample_rate : ℕ) (channels : ℕ) :
    AudioData α :=
  { samples := samples
    sample_rate := sample_rate
    channels := channels
    duration_ms :=
      if 0 < sample_rate ∧ 0 < channels then
        samples.length * 1000 / (sample_rate * channels)
      else 0 }

/-- `AudioData::is_empty`. -/
def AudioData.is_empty {α : Type} (a : AudioData α) : Bool := a.samples.isEmpty

/-! ## Batch recorder (src/rust-servers/src/voice/audio/recorder.rs) -/

/-- Recording mode (enum RecordingMode; the voice module mirrors it with
an identical enum plus a From conversion, collapsed here into one type). -/
inductive RecordingMode
  | press
  | toggle
  deriving DecidableEq, Repr

/-- Recording error (enum RecordingError). -/
inductive RecordingError
  | microphoneUnavailable (msg : String)
  | permissionDenied
  | deviceError (msg : String)
  | alreadyRecording
  | notRecording
  | encodingError (msg : String)
  | unsupportedSampleFormat (msg : String)
  deriving DecidableEq, Repr

/-- The audio-device configuration obtained from cpal
(`default_input_config`): native sample rate and channel count. The
device itself is external; its outcome enters the model as an
`Except RecordingError DeviceConfig` oracle. -/
structure DeviceConfig where
  sample_rate : ℕ
  channels : ℕ
  deriving DecidableEq, Repr

/-- Split a list into consecutive chunks of `n` elements (the last chunk
may be shorter), mirroring Rust `chunks_mut(n)`. -/
def listChunks {α : Type} (n : ℕ) (l : List α) : List (List α) :=
  if h : l.isEmpty ∨ n = 0 then []
  else l.take n :: listChunks n (l.drop n)
termination_by l.length
decreasing_by
  push_neg at h
  simp only [List.length_drop]
  exact Nat.sub_lt (List.length_pos.mpr (by simpa using h.1)) (Nat.pos_of_ne_zero h.2)

/-- The AGC loop of `AudioRecorder::stop` (recorder.rs lines 340-343):
fixed 3200-sample blocks with the gain carried across blocks, starting
from 1.0. -/
noncomputable def agcChunks (samples : List ℝ) : List ℝ :=
  ((listChunks AGC_CHUNK_SAMPLES samples).foldl
    (fun acc chunk =>
      let p := apply_agc chunk acc.2
      (acc.1 ++ p.1, p.2))
    (([] : List ℝ), (1 : ℝ))).1

/-- struct AudioRecorder: the state owned by the batch recorder. The
level callback and the wall-clock emission gate are external (UI side
effects) and carry no state the modelled operations read. -/
structure AudioRecorder where
  device_sample_rate : ℕ
  channels : ℕ
  audio_data : List ℝ
  is_recording : Bool
  recording_mode : Option RecordingMode
  stream : Bool
  smoothed_level : ℝ
  compression_level : AudioCompressionLevel

/-- `AudioRecorder::new` (recorder.rs lines 98-111). -/
noncomputable def AudioRecorder.new : AudioRecorder :=
  { device_sample_rate := 48000
    channels := 1
    audio_data := []
    is_recording := false
    recording_mode := none
    stream := false
    smoothed_level := 0
    compression_level := .minimum }

/-- `AudioRecorder::start` (recorder.rs lines 121-264). The recording
flag, mode, buffer and compression level are set before any device call;
a device failure therefore leaves those mutations in place, exactly as
the early returns of the source do. -/
noncomputable def AudioRecorder.start (r : AudioRecorder) (mode : RecordingMode)
    (dev : Except RecordingError DeviceConfig)
    (compression_level : AudioCompressionLevel) :
    AudioRecorder × Except RecordingError Unit :=
  if r.is_recording then (r, .error .alreadyRecording)
  else
    let r1 := { r with audio_data := []
                       is_recording := true
                       recording_mode := some mode
                       smoothed_level := 0
                       compression_level := compression_level }
    match dev with
    | .error e => (r1, .error e)
    | .ok cfg =>
        ({ r1 with device_sample_rate := cfg.sample_rate
                   channels := cfg.channels
                   stream := true }, .ok ())

/-- The buffer-filling part of `AudioRecorder::handle_audio_callback`
(recorder.rs lines 266-294): ignore data when not recording, otherwise
append. The 30 Hz level emission is gated on wall-clock time and feeds
only the UI callback. -/
def AudioRecorder.handle_audio_callback (r : AudioRecorder) (data : List ℝ) :
    AudioRecorder :=
  if r.is_recording then { r with audio_data := r.audio_data ++ data } else r

/-- `AudioRecorder::stop` (recorder.rs lines 296-349): reject when idle,
otherwise clear the flags, then mono-mix, resample to the compression
target, and AGC the capture in 3200-sample blocks. -/
noncomputable def AudioRecorder.stop (r : AudioRecorder) :
    AudioRecorder × Except RecordingError (AudioData ℝ) :=
  if r.is_recording = false then (r, .error .notRecording)
  else
    let r1 := { r with is_recording := false, recording_mode := none, stream := false }
    let raw_audio := r.audio_data
    if raw_audio.isEmpty then
      (r1, .ok (AudioData.new [] TARGET_SAMPLE_RATE 1))
    else
      let mono_audio := to_mono raw_audio r.channels
      let target_sample_rate :=
        resolve_compression_sample_rate r.device_sample_rate r.compression_level
      let resampled_audio :=
        if target_sample_rate = r.device_sample_rate then mono_audio
        else resample mono_audio r.device_sample_rate target_sample_rate
      (r1, .ok (AudioData.new (agcChunks resampled_audio) target_sample_rate 1))

/-- `AudioRecorder::cancel` (recorder.rs lines 351-357): unconditional —
reset the flags, drop the stream and clear the buffer. It returns
nothing and has no failure path. -/
def AudioRecorder.cancel (r : AudioRecorder) : AudioRecorder :=
  { r with is_recording := false, recording_mode := none, stream := false,
           audio_data := [] }

/-! ## Streaming recorder (src/rust-servers/src/voice/audio/streaming.rs)

The buffered full-audio path is modelled over `ℚ` (it is purely
rational); the per-chunk VAD/AGC emission tail of the device callback
feeds the bounded chunk channel and is not needed by the claims below. -/

/-- struct StreamingRecorder. -/
structure StreamingRecorder where
  device_sample_rate : ℕ
  channels : ℕ
  is_recording : Bool
  recording_mode : Option RecordingMode
  stream : Bool
  chunk_sender : Bool
  full_audio_data : List ℚ
  smoothed_level : ℚ
  vad_hangover : ℕ
  agc_gain : ℚ
  compression_level : AudioCompressionLevel
  deriving DecidableEq, Repr

/-- `StreamingRecorder::new` (streaming.rs lines 77-94). -/
def StreamingRecorder.new : StreamingRecorder :=
  { device_sample_rate := 48000
    channels := 1
    is_recording := false
    recording_mode := none
    stream := false
    chunk_sender := false
    full_audio_data := []
    smoothed_level := 0
    vad_hangover := 0
    agc_gain := 1
    compression_level := .minimum }

/-- `StreamingRecorder::start_streaming` (streaming.rs lines 104-295):
reject when recording, otherwise reset the state, open the chunk channel
and start the device stream (device outcome supplied as an oracle). -/
def StreamingRecorder.start_streaming (r : StreamingRecorder) (mode : RecordingMode)
    (dev : Except RecordingError DeviceConfig)
    (compression_level : AudioCompressionLevel) :
    StreamingRecorder × Except RecordingError Unit :=
  if r.is_recording then (r, .error .alreadyRecording)
  else
    let r1 := { r with full_audio_data := []
                       is_recording := true
                       recording_mode := some mode
                       smoothed_level := 0
                       vad_hangover := 0
                       agc_gain := 1
                       compression_level := compression_level
                       chunk_sender := true }
    match dev with
    | .error e => (r1, .error e)
    | .ok cfg =>
        ({ r1 with device_sample_rate := cfg.sample_rate
                   channels := cfg.channels
                   stream := true }, .ok ())

/-- The full-audio append performed at the top of
`handle_streaming_callback` (streaming.rs lines 313-317): nothing when
not recording, otherwise the raw callback samples are appended to the
full buffer kept for the fallback path. -/
def StreamingRecorder.callback_append (r : StreamingRecorder) (data : List ℚ) :
    StreamingRecorder :=
  if r.is_recording then { r with full_audio_data := r.full_audio_data ++ data } else r

/-- The i16-format input stream (streaming.rs lines 203-240) converts the
device samples with `convert_i16_to_f32` before the shared callback. -/
def StreamingRecorder.callback_append_i16 (r : StreamingRecorder) (data : List ℤ) :
    StreamingRecorder :=
  r.callback_append (convert_i16_to_f32 data)

/-- `StreamingRecorder::stop_streaming` (streaming.rs lines 386-431):
reject when idle; otherwise clear the flags, drop stream and sender,
then mono-mix and resample the buffered full audio to the compression
target (no AGC on this path). The two drain sleeps are wall-clock
effects. -/
def StreamingRecorder.stop_streaming (r : StreamingRecorder) :
    StreamingRecorder × Except RecordingError (AudioData ℚ) :=
  if r.is_recording = false then (r, .error .notRecording)
  else
    let r1 := { r with is_recording := false, recording_mode := none,
                       stream := false, chunk_sender := false }
    let raw_audio := r.full_audio_data
    if raw_audio.isEmpty then
      (r1, .ok (AudioData.new [] TARGET_SAMPLE_RATE 1))
    else
      let mono_audio := to_mono raw_audio r.channels
      let target_sample_rate :=
        resolve_compression_sample_rate r.device_sample_rate r.compression_level
      let resampled_audio :=
        if target_sample_rate = r.device_sample_rate then mono_audio
        else resample mono_audio r.device_sample_rate target_sample_rate
      (r1, .ok (AudioData.new resampled_audio target_sample_rate 1))

/-- `StreamingRecorder::cancel` (streaming.rs lines 433-441). -/
def StreamingRecorder.cancel (r : StreamingRecorder) : StreamingRecorder :=
  { r with is_recording := false, recording_mode := none, stream := false,
           chunk_sender := false, full_audio_data := [] }

/-! ## Voice handler (src/rust-servers/src/voice/mod.rs) -/

/-- Recording state notification payload (enum RecordingState). -/
inductive RecordingStateE
  | started
  | stopped
  | cancelled
  deriving DecidableEq, Repr

/-- The messages and side effects the voice handler produces while
handling a command (sends through the shared websocket sink, beeps). -/
inductive VoiceEvent
  | beep_start
  | beep_stop
  | recording_state (s : RecordingStateE)
  deriving DecidableEq, Repr

/-- struct ConnectionState (voice/mod.rs lines 92-113). Task handles,
the stop one-shot and the level channel are modelled by presence flags;
the recorders keep their full model state. -/
structure ConnectionState where
  asr_config : Option ASRConfig
  is_recording : Bool
  recording_mode : Option RecordingMode
  recorder : Option AudioRecorder
  streaming_recorder : Option StreamingRecorder
  realtime_task : Bool
  stop_signal : Bool
  beep_enabled : Bool
  audio_level_tx : Bool

/-- `ConnectionState::new` (voice/mod.rs lines 115-130). -/
def ConnectionState.new : ConnectionState :=
  { asr_config := none
    is_recording := false
    recording_mode := none
    recorder := none
    streaming_recorder := none
    realtime_task := false
    stop_signal := false
    beep_enabled := true
    audio_level_tx := false }

/-- `VoiceHandler::handle_start_recording` (voice/mod.rs lines 189-327),
as a state transformer. Note there is no call to `ASRConfig::validate`
anywhere in this function: the state is mutated and the recorder started
regardless of the config contents. The returned list is the sequence of
beeps and websocket messages of the success path. -/
noncomputable def handle_start_recording (st : ConnectionState) (mode : RecordingMode)
    (asr_config : ASRConfig) (dev : Except RecordingError DeviceConfig) :
    ConnectionState × Except String (List VoiceEvent) :=
  if st.is_recording then (st, .error "已在录音中")
  else
    let st1 := { st with asr_config := some asr_config
                         is_recording := true
                         recording_mode := some mode
                         beep_enabled := asr_config.enable_audio_feedback
                         audio_level_tx := true }
    if asr_config.primary.mode = ASRMode.realtime then
      let sp := StreamingRecorder.new.start_streaming mode dev asr_config.audio_compression
      match sp.2 with
      | .error _ => (st1, .error "启动流式录音失败")
      | .ok _ =>
          let st2 := { st1 with streaming_recorder := some sp.1
                                realtime_task := true
                                stop_signal := true }
          (st2, .ok [VoiceEvent.beep_start, VoiceEvent.recording_state .started])
    else
      let rp := AudioRecorder.new.start mode dev asr_config.audio_compression
      match rp.2 with
      | .error _ => (st1, .error "启动录音失败")
      | .ok _ =>
          let st2 := { st1 with recorder := some rp.1 }
          (st2, .ok [VoiceEvent.beep_start, VoiceEvent.recording_state .started])

/-- ASR error (voice/asr, not under src/; only the two shapes the voice
handler distinguishes are needed: a configuration error and everything
the engines can raise, the latter entering as an oracle). -/
inductive ASRError
  | configError (e : ConfigError)
  | engineError (msg : String)
  deriving DecidableEq, Repr

/-- struct TranscriptionResult. -/
structure TranscriptionResult where
  text : String
  engine : String
  used_fallback : Bool
  duration_ms : ℕ
  deriving DecidableEq, Repr

/-- `perform_transcription` (voice/mod.rs lines 713-734): validate the
config first — a ConfigError is returned before the parallel fallback
strategy is even constructed — then run the strategy (network-dependent,
supplied as an oracle). -/
def perform_transcription (audio_data : AudioData ℚ) (asr_config : ASRConfig)
    (strategy_transcribe : AudioData ℚ → Except ASRError TranscriptionResult) :
    Except ASRError TranscriptionResult :=
  match asr_config.validate with
  | .error e => .error (.configError e)
  | .ok _ => strategy_transcribe audio_data

/-! ## PTY reader task (src/rust-servers/src/pty/mod.rs lines 158-256)

The reader loop is driven by the sequence of outcomes of its blocking
reads and websocket sends; that sequence is the model input. Bytes are
natural numbers below 256; the session id enters as its UTF-8 bytes. -/

/-- One iteration input of the reader loop: a completed blocking read
(`Ok(Ok((data, n)))`, with the outcome of the websocket send of its
frame), a read error (`Ok(Err)`), or a join error of the blocking task
(`Err`). A zero-length `readOk` is the EOF case of the source match. -/
inductive ReadEvent
  | readOk (bytes : List ℕ) (sendOk : Bool)
  | readErr
  | joinErr
  deriving DecidableEq, Repr

/-- What the reader task pushes outward: a binary output frame, the text
exit envelope, or the one-time shell-integration script written back
into the PTY. -/
inductive PtyEmission
  | binaryFrame (frame : List ℕ)
  | exitEnvelope (session_id : List ℕ) (code : ℕ)
  | scriptWrite
  deriving DecidableEq, Repr

/-- Why the reader loop terminated. -/
inductive StopCause
  | eof
  | readError
  | joinError
  | sendFail
  deriving DecidableEq, Repr

/-- The binary PTY output frame (pty/mod.rs lines 192-200):
`[session_id_len as u8][session_id bytes][data]`. -/
def ptyFrame (session_id : List ℕ) (data : List ℕ) : List ℕ :=
  (session_id.length % 256) :: (session_id ++ data)

/-- The reader task loop (pty/mod.rs lines 173-253) over a finite prefix
of read outcomes. `script` states whether the shell type has an
integration script; `first` is the `first_output` flag. Every send
attempt is recorded as an emission; a failed data-frame send breaks the
loop. Returns the emissions and the termination cause (`none` when the
event prefix ran out with the loop still reading). -/
def readTaskRun (session_id : List ℕ) (script : Bool) :
    Bool → List ReadEvent → List PtyEmission × Option StopCause
  | _, [] => ([], none)
  | first, .readOk bytes sendOk :: rest =>
      if 0 < bytes.length then
        let frame := PtyEmission.binaryFrame (ptyFrame session_id bytes)
        if sendOk then
          let script_em : List PtyEmission :=
            if first ∧ script then [.scriptWrite] else []
          let next := readTaskRun session_id script false rest
          (frame :: script_em ++ next.1, next.2)
        else ([frame], some .sendFail)
      else ([.exitEnvelope session_id 0], some .eof)
  | _, .readErr :: _ => ([], some .readError)
  | _, .joinErr :: _ => ([], some .joinError)

/-- Count of exit envelopes among the emissions. -/
def exitCount (ems : List PtyEmission) : ℕ :=
  ems.countP fun e =>
    match e with
    | .exitEnvelope _ _ => true
    | _ => false

/-! ## Router and connection loop (src/rust-servers/src/router.rs,
src/rust-servers/src/server.rs)

JSON text parsing is external (serde_json); a message enters the model
as the parse outcome `Option Json` of its text, shared — serde is
deterministic — between `parse_message` and `extract_module_from_json`,
which both parse the same text. -/

/-- JSON values (serde_json::Value). -/
inductive Json
  | null
  | bool (b : Bool)
  | num (n : ℚ)
  | str (s : String)
  | arr (elems : List Json)
  | obj (fields : List (String × Json))

/-- `Value::get` on an object key (first matching field). -/
def Json.get : Json → String → Option Json
  | .obj fields, key => fields.lookup key
  | _, _ => none

/-- `Value::as_str`. -/
def Json.asStr : Json → Option String
  | .str s => some s
  | _ => none

/-- Module tag (enum ModuleType, serde rename_all snake_case). -/
inductive ModuleType
  | pty
  | voice
  | llm
  | utils
  deriving DecidableEq, Repr

/-- The serde string form of each module tag. -/
def moduleOfString : String → Option ModuleType
  | "pty" => some .pty
  | "voice" => some .voice
  | "llm" => some .llm
  | "utils" => some .utils
  | _ => none

/-- struct ModuleMessage: module tag, free-form type, raw payload. -/
structure ModuleMessage where
  module : ModuleType
  msg_type : String
  payload : Json

/-- Deserialization of ModuleMessage from a parsed JSON value
(`MessageRouter::parse_message`, router.rs lines 230-237): the `module`
field must be one of the four tags and `type` must be a string; the
whole value is retained as the flattened payload. -/
def parseModuleMessage (v : Json) : Option ModuleMessage :=
  match (v.get "module").bind Json.asStr, (v.get "type").bind Json.asStr with
  | some m, some t => (moduleOfString m).map fun mt => ⟨mt, t, v⟩
  | _, _ => none

/-- struct ServerResponse. -/
structure ServerResponse where
  module : ModuleType
  msg_type : String
  payload : Json

/-- `ServerResponse::error` (router.rs lines 112-122). -/
def ServerResponse.error (module : ModuleType) (code : String) (message : String) :
    ServerResponse :=
  ⟨module, "error", .obj [("code", .str code), ("message", .str message)]⟩

/-- `PtyHandler::has_sessions` (pty/mod.rs lines 332-335): the session
table is non-empty. -/
def has_sessions (sessions : List String) : Bool := !sessions.isEmpty

/-- `extract_module_from_json` (server.rs lines 237-253): the module
field of the re-parsed text when it names a known module, else Utils. -/
def extract_module_from_json (parsed : Option Json) : ModuleType :=
  match parsed with
  | some v =>
      match (v.get "module").bind Json.asStr with
      | some m => (moduleOfString m).getD ModuleType.utils
      | none => ModuleType.utils
  | none => ModuleType.utils

/-- `create_parse_error_response` (server.rs lines 256-262). -/
def create_parse_error_response (module : ModuleType) (errMsg : String) :
    ServerResponse :=
  ServerResponse.error module "PARSE_ERROR" ("消息解析失败: " ++ errMsg)

/-- What the connection loop sends back while handling one text frame:
a text response on the websocket, or bytes written into the PTY. -/
inductive OutMsg
  | text (resp : ServerResponse)
  | ptyInput (data : String)

/-- `handle_text_message` (server.rs lines 185-234). `parsed` is the
serde outcome of the frame text, `parse_err` the serde error display
used in the parse-error reply, `route_result` the outcome of module
dispatch (an oracle; module errors map to MODULE_ERROR in
`create_error_response`). On parse failure with a live PTY session the
raw text is written into the PTY — write errors are only logged — and
nothing is sent back. -/
def handle_text_message (text : String) (parsed : Option Json) (parse_err : String)
    (sessions : List String)
    (route_result : Except String (Option ServerResponse)) : List OutMsg :=
  match parsed.bind parseModuleMessage with
  | some msg =>
      match route_result with
      | .ok (some response) => [.text response]
      | .ok none => []
      | .error e => [.text (ServerResponse.error msg.module "MODULE_ERROR" e)]
  | none =>
      if has_sessions sessions then [.ptyInput text]
      else
        [.text (create_parse_error_response (extract_module_from_json parsed) parse_err)]

/-- Decidable equality for `Except`, so concrete handler outcomes can be
checked by `decide`. -/
instance {E A : Type} [DecidableEq E] [DecidableEq A] : DecidableEq (Except E A) := fun
  | .ok a, .ok b =>
      if h : a = b then .isTrue (by rw [h])
      else .isFalse (by intro hh; cases hh; exact h rfl)
  | .ok _, .error _ => .isFalse (by intro hh; cases hh)
  | .error _, .ok _ => .isFalse (by intro hh; cases hh)
  | .error e, .error f =>
      if h : e = f then .isTrue (by rw [h])
      else .isFalse (by intro hh; cases hh; exact h rfl)

/-! ## Theorems -/

theorem credMissing_eq_false_iff (o : Option String) :
    credMissing o = false ↔ ∃ k, o = some k ∧ k ≠ "" := by
  cases o with
  | none => simp [credMissing]
  | some k =>
      simp only [credMissing, Option.some.injEq]
      rw [show (k.isEmpty = false) ↔ ¬ (k.isEmpty = true) by simp, String.isEmpty_iff]
      constructor
      · intro h
        exact ⟨k, rfl, h⟩
      · rintro ⟨k', hk', hne⟩
        cases hk'
        exact hne


/-- Claim C4: `ASRProviderConfig::validate` fails exactly on the invalid
configurations — a Qwen config without a non-empty dashscope_api_key, a
Doubao config missing (or with empty) app_id or access_token, a
SenseVoice config without a non-empty siliconflow_api_key or with a
non-HTTP mode — and accepts every config with its own non-empty
credentials and a supported provider/mode pair. -/
theorem voice_config_validate_ok_iff (c : ASRProviderConfig) :
    c.validate = .ok () ↔ providerConfigValidSpec c := by
  unfold ASRProviderConfig.validate providerConfigValidSpec
  cases hp : c.provider with
  | qwen =>
      cases h : credMissing c.dashscope_api_key <;>
        simp [h, ← credMissing_eq_false_iff]
  | doubao =>
      cases h1 : credMissing c.app_id <;> cases h2 : credMissing c.access_token <;>
        simp [h1, h2, ← credMissing_eq_false_iff]
  | sensevoice =>
      cases h : credMissing c.siliconflow_api_key <;> cases hm : c.mode <;>
        simp [h, hm, ← credMissing_eq_false_iff]

/-- Index-window lemma: reading `n` consecutive elements starting at `s`
through `getD` equals the slice `drop s |> take n` when it is in bounds. -/
theorem map_range_getD_eq_drop_take {α : Type} (l : List α) (d : α) (s n : ℕ)
    (h : s + n ≤ l.length) :
    (List.range n).map (fun j => l.getD (s + j) d) = (l.drop s).take n := by
  apply List.ext_getElem
  · simp only [List.length_map, List.length_range, List.length_take, List.length_drop]
    omega
  · intro i h1 h2
    simp only [List.length_map, List.length_range] at h1
    simp only [List.getElem_map, List.getElem_range, List.getElem_take, List.getElem_drop]
    exact List.getD_eq_getElem l d (by omega)

/-- Claim C9: for a `c`-channel interleaved input with `c ≥ 2`, `to_mono`
returns exactly `floor(len / c)` samples, sample `i` being the arithmetic
mean of the `i`-th complete frame; trailing samples beyond the last
complete frame are discarded, and one channel passes through unchanged. -/
theorem to_mono_spec (input : List ℚ) (c : ℕ) (hc : 2 ≤ c) :
    ((to_mono input c).length = input.length / c
      ∧ ∀ i, i < input.length / c →
          (to_mono input c).getD i 0 = ((input.drop (i * c)).take c).sum / c)
    ∧ to_mono input 1 = input := by
  have hc1 : c ≠ 1 := by omega
  refine ⟨⟨?_, ?_⟩, by simp [to_mono]⟩
  · simp [to_mono, hc1]
  · intro i hi
    have hlen : (to_mono input c).length = input.length / c := by simp [to_mono, hc1]
    have hbound : i * c + c ≤ input.length := by
      have h1 : (i + 1) * c ≤ (input.length / c) * c :=
        Nat.mul_le_mul_right c hi
      have h2 : (input.length / c) * c ≤ input.length := Nat.div_mul_le_self _ _
      have h3 : (i + 1) * c = i * c + c := by ring
      omega
    rw [List.getD_eq_getElem _ _ (by omega)]
    simp only [to_mono, if_neg hc1, List.getElem_map, List.getElem_range]
    rw [map_range_getD_eq_drop_take input 0 (i * c) c hbound]

/-- Witness for C9 at a concrete stereo signal. -/
theorem to_mono_spec_witness :
    (2 ≤ 2)
    ∧ ((to_mono [(1 : ℚ), 3, 5, 7, 9] 2).length = 2
        ∧ ∀ i, i < 2 →
            (to_mono [(1 : ℚ), 3, 5, 7, 9] 2).getD i 0 =
              (([(1 : ℚ), 3, 5, 7, 9].drop (i * 2)).take 2).sum / 2)
    ∧ to_mono [(1 : ℚ), 3, 5, 7, 9] 1 = [(1 : ℚ), 3, 5, 7, 9] := by
  refine ⟨by decide, ?_⟩
  have h := to_mono_spec [(1 : ℚ), 3, 5, 7, 9] 2 (by decide)
  simpa using h


/-- The UI level always lies in the unit interval: the source clamps with
`.max(0.0).min(1.0)`. -/
theorem calculate_audio_level_mem_unit (samples : List ℝ) :
    0 ≤ calculate_audio_level samples ∧ calculate_audio_level samples ≤ 1 := by
  unfold calculate_audio_level
  split
  · norm_num
  · exact ⟨le_min (le_max_right _ _) (by norm_num), min_le_right _ _⟩

/-- Claim C10: `generate_waveform` always returns exactly `num_bars`
levels, each in the unit interval; the empty signal yields zeros, a
signal shorter than `num_bars` yields one global level replicated, and
otherwise bar `i` is the level of its chunk, the last chunk absorbing
the division remainder. -/
theorem generate_waveform_spec (samples : List ℝ) (num_bars : ℕ) (hn : 0 < num_bars) :
    (generate_waveform samples num_bars).length = num_bars
    ∧ (∀ x ∈ generate_waveform samples num_bars, 0 ≤ x ∧ x ≤ 1)
    ∧ (samples = [] → generate_waveform samples num_bars = List.replicate num_bars 0)
    ∧ (samples ≠ [] → samples.length < num_bars →
        generate_waveform samples num_bars =
          List.replicate num_bars (calculate_audio_level samples))
    ∧ (num_bars ≤ samples.length →
        ∀ i, i < num_bars →
          (generate_waveform samples num_bars).getD i 0 =
            calculate_audio_level
              ((samples.drop (i * (samples.length / num_bars))).take
                ((if i = num_bars - 1 then samples.length
                  else (i + 1) * (samples.length / num_bars)) -
                  i * (samples.length / num_bars)))) := by
  have hn0 : num_bars ≠ 0 := Nat.pos_iff_ne_zero.mp hn
  refine ⟨?_, ?_, ?_, ?_, ?_⟩
  · unfold generate_waveform
    split
    · simp
    · dsimp only
      split <;> simp
  · intro x hx
    unfold generate_waveform at hx
    split at hx
    · rcases List.eq_of_mem_replicate hx with rfl
      norm_num
    · dsimp only at hx
      split at hx
      · rcases List.eq_of_mem_replicate hx with rfl
        exact calculate_audio_level_mem_unit _
      · rcases List.mem_map.mp hx with ⟨i, _, rfl⟩
        exact calculate_audio_level_mem_unit _
  · intro he
    subst he
    simp [generate_waveform]
  · intro hne hlt
    have hcs : samples.length / num_bars = 0 := Nat.div_eq_of_lt hlt
    unfold generate_waveform
    rw [if_neg (by simp [hn0, List.isEmpty_iff, hne])]
    simp [hcs]
  · intro hge i hi
    have hne : ¬ (samples.isEmpty = true ∨ num_bars = 0) := by
      have hs : samples ≠ [] := by
        intro h0
        rw [h0] at hge
        simp at hge
        omega
      simp [List.isEmpty_iff, hs, hn0]
    have hcs : samples.length / num_bars ≠ 0 := by
      have := (Nat.one_le_div_iff hn).mpr hge
      omega
    conv =>
      lhs
      unfold generate_waveform
    rw [if_neg hne, if_neg hcs]
    rw [List.getD_eq_getElem _ _ (by simpa using hi)]
    simp only [List.getElem_map, List.getElem_range]

/-- Witness for C10 at a concrete signal and bar count. -/
theorem generate_waveform_spec_witness :
    (0 < 3)
    ∧ (generate_waveform [(1 : ℝ), 2, 3, 4] 3).length = 3
    ∧ (∀ x ∈ generate_waveform [(1 : ℝ), 2, 3, 4] 3, 0 ≤ x ∧ x ≤ 1) := by
  have h := generate_waveform_spec [(1 : ℝ), 2, 3, 4] 3 (by norm_num)
  exact ⟨by norm_num, h.1, h.2.1⟩

/-- `foldr max 0` over a list of reals is nonnegative. -/
theorem foldr_max_nonneg (l : List ℝ) : 0 ≤ l.foldr max 0 := by
  induction l with
  | nil => simp
  | cons x xs ih => exact le_max_of_le_right ih

/-- Every member of a list is bounded by its `foldr max 0`. -/
theorem le_foldr_max (l : List ℝ) (x : ℝ) (hx : x ∈ l) : x ≤ l.foldr max 0 := by
  induction l with
  | nil => cases hx
  | cons y ys ih =>
      rcases List.mem_cons.mp hx with h | h
      · subst h
        exact le_max_left _ _
      · exact le_trans (ih h) (le_max_right _ _)

/-- The RMS of a frame never exceeds its peak absolute sample. -/
theorem calculate_rms_le_peak (samples : List ℝ) :
    calculate_rms samples ≤ calculate_peak samples := by
  unfold calculate_rms
  split
  · exact foldr_max_nonneg _
  · rename_i hne
    have hP : 0 ≤ calculate_peak samples := foldr_max_nonneg _
    have hlen : 0 < samples.length := by
      cases samples with
      | nil => simp at hne
      | cons a l => simp
    have habs : ∀ s ∈ samples, s ^ 2 ≤ calculate_peak samples ^ 2 := by
      intro s hs
      have h1 : |s| ≤ calculate_peak samples :=
        le_foldr_max _ _ (List.mem_map.mpr ⟨s, hs, rfl⟩)
      calc s ^ 2 = |s| ^ 2 := (sq_abs s).symm
        _ ≤ calculate_peak samples ^ 2 := pow_le_pow_left (abs_nonneg s) h1 2
    have hsum : (samples.map fun s => s ^ 2).sum ≤
        samples.length * calculate_peak samples ^ 2 := by
      have hb := List.sum_le_card_nsmul (samples.map fun s => s ^ 2)
        (calculate_peak samples ^ 2) ?_
      · simpa [nsmul_eq_mul] using hb
      · intro y hy
        rcases List.mem_map.mp hy with ⟨s, hs, rfl⟩
        exact habs s hs
    have hdiv : (samples.map fun s => s ^ 2).sum / samples.length ≤
        calculate_peak samples ^ 2 := by
      rw [div_le_iff (by exact_mod_cast hlen)]
      calc (samples.map fun s => s ^ 2).sum
          ≤ samples.length * calculate_peak samples ^ 2 := hsum
        _ = calculate_peak samples ^ 2 * samples.length := by ring
    calc Real.sqrt ((samples.map fun s => s ^ 2).sum / samples.length)
        ≤ Real.sqrt (calculate_peak samples ^ 2) := Real.sqrt_le_sqrt hdiv
      _ = calculate_peak samples := Real.sqrt_sq hP

/-- Claim C8: `is_voice_active` holds exactly when the RMS strictly
exceeds `VOICE_THRESHOLD = 0.003`; the RMS never exceeds the peak, so
every frame whose peak is below 0.003 is classified silent. -/
theorem is_voice_active_spec (samples : List ℝ) :
    (is_voice_active samples ↔ calculate_rms samples > 3 / 1000)
    ∧ calculate_rms samples ≤ calculate_peak samples
    ∧ (calculate_peak samples < 3 / 1000 → ¬ is_voice_active samples) := by
  refine ⟨?_, calculate_rms_le_peak samples, ?_⟩
  · unfold is_voice_active VAD_VOICE_THRESHOLD AGC_NOISE_FLOOR
    exact Iff.rfl
  · intro hpk hact
    unfold is_voice_active VAD_VOICE_THRESHOLD AGC_NOISE_FLOOR at hact
    have := calculate_rms_le_peak samples
    linarith

/-- Witness for C8 at a concrete quiet frame. -/
theorem is_voice_active_spec_witness :
    calculate_peak [(1 : ℝ) / 1000] < 3 / 1000
    ∧ ¬ is_voice_active [(1 : ℝ) / 1000] := by
  have hpk : calculate_peak [(1 : ℝ) / 1000] < 3 / 1000 := by
    unfold calculate_peak
    simp only [List.map_cons, List.map_nil, List.foldr_cons, List.foldr_nil]
    rw [abs_of_nonneg (by norm_num)]
    rw [max_eq_left (by norm_num)]
    norm_num
  exact ⟨hpk, (is_voice_active_spec [(1 : ℝ) / 1000]).2.2 hpk⟩


/-- A `filterMap` whose guard holds on every element is a `map`. -/
theorem filterMap_ite_eq_map {β γ : Type} (l : List β) (p : β → Prop)
    [DecidablePred p] (g : β → γ) (h : ∀ i ∈ l, p i) :
    (l.filterMap fun i => if p i then some (g i) else none) = l.map g := by
  induction l with
  | nil => simp
  | cons x xs ih =>
      simp only [List.filterMap_cons, List.map_cons]
      rw [if_pos (h x (List.mem_cons_self x xs))]
      rw [ih fun i hi => h i (List.mem_cons_of_mem x hi)]

/-- The output length computed by `resample` through the rational floor
is the exact `floor(len * to / from)`. -/
theorem resample_output_len (len f t : ℕ) (hf : 0 < f) (ht : 0 < t) :
    ⌊(len : ℚ) / ((f : ℚ) / (t : ℚ))⌋₊ = len * t / f := by
  have hcast : (len : ℚ) / ((f : ℚ) / (t : ℚ)) = ((len * t : ℕ) : ℚ) / ((f : ℕ) : ℚ) := by
    rw [div_div_eq_mul_div]
    push_cast
    ring
  rw [hcast, Nat.floor_div_nat, Nat.floor_natCast]

/-- In-bounds guard: for every index below the computed output length,
the floor source index is a valid input index. -/
theorem resample_guard (x : List ℚ) (f t : ℕ) (hf : 0 < f) (ht : 0 < t) :
    ∀ i < ⌊(x.length : ℚ) / ((f : ℚ) / (t : ℚ))⌋₊,
      ⌊(i : ℚ) * ((f : ℚ) / (t : ℚ))⌋₊ < x.length := by
  intro i hi
  set ratio : ℚ := (f : ℚ) / (t : ℚ) with hr
  have hratio : 0 < ratio := by
    apply div_pos <;> exact_mod_cast ‹_›
  have hnn : (0 : ℚ) ≤ (x.length : ℚ) / ratio := by positivity
  have h1 : ((i : ℚ) + 1) ≤ (⌊(x.length : ℚ) / ratio⌋₊ : ℚ) := by
    exact_mod_cast Nat.succ_le_of_lt hi
  have h2 : (⌊(x.length : ℚ) / ratio⌋₊ : ℚ) ≤ (x.length : ℚ) / ratio :=
    Nat.floor_le hnn
  have h3 : ((i : ℚ) + 1) * ratio ≤ (x.length : ℚ) := by
    rw [← le_div_iff hratio]
    linarith
  have h4 : (i : ℚ) * ratio < (x.length : ℚ) := by
    nlinarith
  exact (Nat.floor_lt (by positivity)).mpr h4

/-- Claim C6: for positive distinct rates, `resample` returns exactly
`floor(len * to / from)` samples, sample `i` interpolating linearly
between the two input samples nearest to source position `i * from / to`
(the ceiling clamped to the last sample); equal rates pass the input
through unchanged. -/
theorem resample_spec (x : List ℚ) (f t : ℕ) (hf : 0 < f) (ht : 0 < t) (hne : f ≠ t) :
    ((resample x f t).length = x.length * t / f
      ∧ ∀ i, i < x.length * t / f →
          (resample x f t).getD i 0 =
            x.getD ⌊((i : ℚ) * f) / t⌋₊ 0 * (1 - (((i : ℚ) * f) / t - ⌊((i : ℚ) * f) / t⌋₊))
              + x.getD (min (⌊((i : ℚ) * f) / t⌋₊ + 1) (x.length - 1)) 0
                * (((i : ℚ) * f) / t - ⌊((i : ℚ) * f) / t⌋₊))
    ∧ ∀ r, resample x r r = x := by
  have hguard := resample_guard x f t hf ht
  have hmap : resample x f t =
      (List.range ⌊(x.length : ℚ) / ((f : ℚ) / (t : ℚ))⌋₊).map
        (resamplePoint x ((f : ℚ) / (t : ℚ))) := by
    unfold resample
    rw [if_neg hne]
    exact filterMap_ite_eq_map _
      (fun (i : ℕ) => ⌊(i : ℚ) * ((f : ℚ) / (t : ℚ))⌋₊ < x.length)
      (resamplePoint x ((f : ℚ) / (t : ℚ)))
      (fun i hi => hguard i (List.mem_range.mp hi))
  have hlen : (resample x f t).length = x.length * t / f := by
    rw [hmap, List.length_map, List.length_range, resample_output_len _ _ _ hf ht]
  refine ⟨⟨hlen, ?_⟩, fun r => by simp [resample]⟩
  intro i hi
  have hi2 : i < (resample x f t).length := by
    rw [hlen]
    exact hi
  rw [List.getD_eq_getElem _ _ hi2]
  have hpoint : (resample x f t)[i] = resamplePoint x ((f : ℚ) / (t : ℚ)) i := by
    rw [List.getElem_of_eq hmap]
    simp
  rw [hpoint]
  unfold resamplePoint
  rw [show (i : ℚ) * ((f : ℚ) / (t : ℚ)) = ((i : ℚ) * f) / t by ring]

/-- Witness for C6 at a concrete signal and rate pair. -/
theorem resample_spec_witness :
    (0 < 2) ∧ (0 < 3) ∧ (2 ≠ 3)
    ∧ (resample [(1 : ℚ), 3] 2 3).length = 2 * 3 / 2
    ∧ ∀ r, resample [(1 : ℚ), 3] r r = [(1 : ℚ), 3] := by
  have h := resample_spec [(1 : ℚ), 3] 2 3 (by decide) (by decide) (by decide)
  exact ⟨by decide, by decide, by decide, h.1.1, h.2⟩


/-- Counterexample to claim C5: a sample captured from an i16-format
device at the i16 minimum value -32768 converts to -32768/32767, which
is strictly below -1, and `stop_streaming` returns it unmodified — so
not every produced sample lies within the unit range. -/
theorem streaming_sample_range_counterexample :
    ((((StreamingRecorder.new.start_streaming RecordingMode.press
            (.ok ⟨16000, 1⟩) AudioCompressionLevel.minimum).1.callback_append_i16
            [-32768]).stop_streaming).2 =
        .ok (AudioData.new (convert_i16_to_f32 [-32768]) 16000 1))
    ∧ ∀ q ∈ (convert_i16_to_f32 [(-32768 : ℤ)] : List ℚ), q < -1 := by
  refine ⟨rfl, ?_⟩
  intro q hq
  simp only [convert_i16_to_f32, List.map_cons, List.map_nil, List.mem_singleton] at hq
  subst hq
  norm_num

/-- Claim C5 (amended): every i16-converted sample lies between
-32768/32767 and 1 — inside the unit range except for a device sample at
the i16 minimum, which lands just below -1 — and `stop_streaming`
returns the buffered samples unmodified whenever the capture is mono and
the compression target equals the device rate. -/
theorem convert_i16_stop_streaming_bounds :
    (∀ data : List ℤ, (∀ s ∈ data, -32768 ≤ s ∧ s ≤ 32767) →
        ∀ q ∈ (convert_i16_to_f32 data : List ℚ), -(32768 / 32767 : ℚ) ≤ q ∧ q ≤ 1)
    ∧ (∀ r : StreamingRecorder, r.is_recording = true → r.channels = 1 →
        resolve_compression_sample_rate r.device_sample_rate r.compression_level
          = r.device_sample_rate →
        r.full_audio_data ≠ [] →
        (r.stop_streaming).2 =
          .ok (AudioData.new r.full_audio_data r.device_sample_rate 1)) := by
  constructor
  · intro data hrange q hq
    simp only [convert_i16_to_f32, List.mem_map] at hq
    rcases hq with ⟨z, hz, rfl⟩
    rcases hrange z hz with ⟨hlo, hhi⟩
    have hlo2 : (-32768 : ℚ) ≤ (z : ℚ) := by exact_mod_cast hlo
    have hhi2 : (z : ℚ) ≤ 32767 := by exact_mod_cast hhi
    have key : ∀ a b : ℚ, a ≤ b → a / 32767 ≤ b / 32767 := by
      intro a b hab
      have h32 : (0 : ℚ) ≤ (32767 : ℚ)⁻¹ := by norm_num
      calc a / 32767 = a * (32767 : ℚ)⁻¹ := by rw [div_eq_mul_inv]
        _ ≤ b * (32767 : ℚ)⁻¹ := mul_le_mul_of_nonneg_right hab h32
        _ = b / 32767 := by rw [div_eq_mul_inv]
    constructor
    · calc -(32768 / 32767 : ℚ) = (-32768 : ℚ) / 32767 := by rw [neg_div]
        _ ≤ (z : ℚ) / 32767 := key _ _ hlo2
    · have h2 : (z : ℚ) / 32767 ≤ (32767 : ℚ) / 32767 := key _ _ hhi2
      simpa using h2
  · intro r hrec hch htgt hbuf
    unfold StreamingRecorder.stop_streaming
    rw [hrec]
    simp only [Bool.true_eq_false, if_false]
    rw [if_neg (by simpa [List.isEmpty_iff] using hbuf)]
    rw [hch, htgt]
    simp [to_mono]

/-- Witness for the amended C5 at concrete device samples and a concrete
recording state. -/
theorem convert_i16_stop_streaming_bounds_witness :
    ((∀ s ∈ [(-32768 : ℤ), 0, 32767], -32768 ≤ s ∧ s ≤ 32767)
      ∧ ∀ q ∈ (convert_i16_to_f32 [(-32768 : ℤ), 0, 32767] : List ℚ),
          -(32768 / 32767 : ℚ) ≤ q ∧ q ≤ 1)
    ∧ (((StreamingRecorder.new.start_streaming RecordingMode.press
            (.ok ⟨16000, 1⟩) AudioCompressionLevel.minimum).1.callback_append
            [5]).stop_streaming).2 =
        .ok (AudioData.new [(5 : ℚ)] 16000 1) := by
  have h := convert_i16_stop_streaming_bounds
  refine ⟨⟨by decide, h.1 [(-32768 : ℤ), 0, 32767] (by decide)⟩, ?_⟩
  have h2 := h.2 ((StreamingRecorder.new.start_streaming RecordingMode.press
      (.ok ⟨16000, 1⟩) AudioCompressionLevel.minimum).1.callback_append [5])
    (by decide) (by decide) (by decide) (by decide)
  simpa using h2


/-- Counterexample to claim C3: `AudioRecorder::cancel` has no failure
path at all — invoked on the Idle recorder it simply returns the same
Idle recorder instead of a NotRecording error, while `stop` on the very
same Idle recorder does reject with NotRecording. -/
theorem recorder_cancel_idle_counterexample :
    AudioRecorder.new.is_recording = false
    ∧ AudioRecorder.new.cancel = AudioRecorder.new
    ∧ AudioRecorder.new.stop = (AudioRecorder.new, .error .notRecording) := by
  refine ⟨rfl, rfl, rfl⟩

/-- Claim C3 (amended): start while Recording fails with AlreadyRecording
and changes nothing; stop while Idle fails with NotRecording and changes
nothing; cancel never fails — it is unconditional, always yielding an
Idle recorder with a cleared buffer — and after a successful stop or
after a cancel the recorder is Idle again, so a subsequent start (with a
working device) succeeds. -/
theorem recorder_state_machine_spec (r : AudioRecorder) (mode mode2 : RecordingMode)
    (cl cl2 : AudioCompressionLevel) (dev : Except RecordingError DeviceConfig)
    (d2 : DeviceConfig) :
    (r.is_recording = true → r.start mode dev cl = (r, .error .alreadyRecording))
    ∧ (r.is_recording = false → r.stop = (r, .error .notRecording))
    ∧ ((r.cancel).is_recording = false ∧ (r.cancel).audio_data = [])
    ∧ (r.is_recording = true →
        ((r.stop).1.is_recording = false
          ∧ ((r.stop).1.start mode2 (.ok d2) cl2).2 = .ok ()))
    ∧ ((r.cancel.start mode2 (.ok d2) cl2).2 = .ok ()) := by
  refine ⟨?_, ?_, ?_, ?_, ?_⟩
  · intro h
    simp [AudioRecorder.start, h]
  · intro h
    simp [AudioRecorder.stop, h]
  · simp [AudioRecorder.cancel]
  · intro h
    have hstop : (r.stop).1.is_recording = false := by
      unfold AudioRecorder.stop
      rw [h]
      simp only [Bool.true_eq_false, if_false]
      split <;> rfl
    refine ⟨hstop, ?_⟩
    simp [AudioRecorder.start, hstop]
  · simp [AudioRecorder.start, AudioRecorder.cancel]

/-- Witness for the amended C3 at concrete recorder states. -/
theorem recorder_state_machine_spec_witness :
    ((AudioRecorder.new.start RecordingMode.press (.ok ⟨48000, 1⟩)
        AudioCompressionLevel.minimum).1.is_recording = true
      ∧ (AudioRecorder.new.start RecordingMode.press (.ok ⟨48000, 1⟩)
            AudioCompressionLevel.minimum).1.start RecordingMode.press
            (.ok ⟨48000, 1⟩) AudioCompressionLevel.minimum
          = ((AudioRecorder.new.start RecordingMode.press (.ok ⟨48000, 1⟩)
                AudioCompressionLevel.minimum).1,
              .error .alreadyRecording))
    ∧ (AudioRecorder.new.is_recording = false
      ∧ AudioRecorder.new.stop = (AudioRecorder.new, .error .notRecording)) := by
  have hrec : (AudioRecorder.new.start RecordingMode.press (.ok ⟨48000, 1⟩)
      AudioCompressionLevel.minimum).1.is_recording = true := rfl
  have h1 := (recorder_state_machine_spec
    (AudioRecorder.new.start RecordingMode.press (.ok ⟨48000, 1⟩)
      AudioCompressionLevel.minimum).1
    RecordingMode.press RecordingMode.press AudioCompressionLevel.minimum
    AudioCompressionLevel.minimum (.ok ⟨48000, 1⟩) ⟨48000, 1⟩).1 hrec
  have h2 := (recorder_state_machine_spec AudioRecorder.new
    RecordingMode.press RecordingMode.press AudioCompressionLevel.minimum
    AudioCompressionLevel.minimum (.ok ⟨48000, 1⟩) ⟨48000, 1⟩).2.1 rfl
  exact ⟨⟨hrec, h1⟩, ⟨rfl, h2⟩⟩


/-- Counterexample to claim C1: a Qwen HTTP config with no
dashscope_api_key fails validation, yet `handle_start_recording` accepts
it — with a working device the handler succeeds, sets the recording
flag, creates a recorder and emits recording_state started, because the
function never calls validate. -/
theorem start_recording_no_validation_counterexample :
    (ASRConfig.validate
        ⟨⟨.qwen, .http, none, none, none, none⟩, none, false, true, none, .minimum⟩
      = .error (.missingApiKey "dashscope_api_key"))
    ∧ (handle_start_recording ConnectionState.new RecordingMode.press
          ⟨⟨.qwen, .http, none, none, none, none⟩, none, false, true, none, .minimum⟩
          (.ok ⟨48000, 1⟩)).1.is_recording = true
    ∧ (handle_start_recording ConnectionState.new RecordingMode.press
          ⟨⟨.qwen, .http, none, none, none, none⟩, none, false, true, none, .minimum⟩
          (.ok ⟨48000, 1⟩)).1.recorder.isSome = true
    ∧ (handle_start_recording ConnectionState.new RecordingMode.press
          ⟨⟨.qwen, .http, none, none, none, none⟩, none, false, true, none, .minimum⟩
          (.ok ⟨48000, 1⟩)).2
        = .ok [VoiceEvent.beep_start, VoiceEvent.recording_state .started] := by
  exact ⟨rfl, rfl, rfl, rfl⟩

/-- Claim C1 (amended): `handle_start_recording` performs no config
validation — invoked on an idle connection with an invalid config and a
working device it still succeeds and enters the recording state machine
(recording flag set, recorder created, recording_state started emitted;
shown on the HTTP path); the config error is instead rejected in
`perform_transcription`, which returns the ConfigError before the
transcription strategy runs. -/
theorem start_recording_validation_spec (st : ConnectionState) (mode : RecordingMode)
    (cfg : ASRConfig) (d : DeviceConfig) (e : ConfigError)
    (hidle : st.is_recording = false) (hval : cfg.validate = .error e)
    (hmode : cfg.primary.mode = ASRMode.http) :
    ((handle_start_recording st mode cfg (.ok d)).2
        = .ok [VoiceEvent.beep_start, VoiceEvent.recording_state .started]
      ∧ (handle_start_recording st mode cfg (.ok d)).1.is_recording = true
      ∧ (handle_start_recording st mode cfg (.ok d)).1.recorder.isSome = true)
    ∧ ∀ (audio : AudioData ℚ)
        (strat : AudioData ℚ → Except ASRError TranscriptionResult),
        perform_transcription audio cfg strat = .error (.configError e) := by
  constructor
  · unfold handle_start_recording
    rw [hidle, hmode]
    simp [AudioRecorder.start, AudioRecorder.new]
  · intro audio strat
    unfold perform_transcription
    rw [hval]

/-- Witness for the amended C1 at the concrete invalid Qwen config. -/
theorem start_recording_validation_spec_witness :
    (ConnectionState.new.is_recording = false
      ∧ ASRConfig.validate
          ⟨⟨.qwen, .http, none, none, none, none⟩, none, false, true, none, .minimum⟩
        = .error (.missingApiKey "dashscope_api_key"))
    ∧ (handle_start_recording ConnectionState.new RecordingMode.toggle
          ⟨⟨.qwen, .http, none, none, none, none⟩, none, false, true, none, .minimum⟩
          (.ok ⟨44100, 2⟩)).1.is_recording = true
    ∧ ∀ (audio : AudioData ℚ)
        (strat : AudioData ℚ → Except ASRError TranscriptionResult),
        perform_transcription audio
            ⟨⟨.qwen, .http, none, none, none, none⟩, none, false, true, none, .minimum⟩
            strat
          = .error (.configError (.missingApiKey "dashscope_api_key")) := by
  have h := start_recording_validation_spec ConnectionState.new RecordingMode.toggle
    ⟨⟨.qwen, .http, none, none, none, none⟩, none, false, true, none, .minimum⟩
    ⟨44100, 2⟩ (.missingApiKey "dashscope_api_key") rfl rfl rfl
  exact ⟨⟨rfl, rfl⟩, h.1.2.1, h.2⟩

/-- Exit envelopes are not counted for binary frames. -/
theorem exitCount_cons_frame (f : List ℕ) (l : List PtyEmission) :
    exitCount (PtyEmission.binaryFrame f :: l) = exitCount l := by
  simp [exitCount]

/-- Exit envelopes are not counted for the optional script write. -/
theorem exitCount_script_prefix (c : Prop) [Decidable c] (l : List PtyEmission) :
    exitCount ((if c then [PtyEmission.scriptWrite] else []) ++ l) = exitCount l := by
  split <;> simp [exitCount]

/-- Counterexample to claim C2: a read error terminates the reader task
with no exit envelope at all, and a failed websocket send of a data
frame terminates it even though the child produced neither EOF nor a
read error. -/
theorem read_task_exit_counterexample :
    ((readTaskRun [116] false true [ReadEvent.readErr]).2 = some StopCause.readError
      ∧ exitCount (readTaskRun [116] false true [ReadEvent.readErr]).1 = 0)
    ∧ (readTaskRun [116] false true [ReadEvent.readOk [104] false]).2
        = some StopCause.sendFail := by
  exact ⟨⟨rfl, rfl⟩, rfl⟩

/-- Claim C2 (amended): the reader task terminates on child EOF, on a
read or join error, or on a websocket send failure; it emits the exit
envelope with code 0 exactly once when termination is due to EOF and
never otherwise — in particular never more than once. -/
theorem read_task_exit_spec (session_id : List ℕ) (script first : Bool)
    (events : List ReadEvent) :
    exitCount (readTaskRun session_id script first events).1 =
      (if (readTaskRun session_id script first events).2 = some StopCause.eof
       then 1 else 0) := by
  induction events generalizing first with
  | nil => simp [readTaskRun, exitCount]
  | cons ev rest ih =>
      cases ev with
      | readOk bytes sendOk =>
          by_cases hb : 0 < bytes.length
          · cases sendOk with
            | false => simp [readTaskRun, if_pos hb, exitCount]
            | true =>
                simp only [readTaskRun, if_pos hb, if_true, List.cons_append]
                rw [exitCount_cons_frame, exitCount_script_prefix]
                exact ih false
          · simp [readTaskRun, hb, exitCount]
      | readErr => simp [readTaskRun, exitCount]
      | joinErr => simp [readTaskRun, exitCount]

/-- Claim C7: when a text frame fails envelope parsing, the connection
loop forwards the raw text as PTY input (sending no error back) whenever
at least one PTY session exists; otherwise it replies with a PARSE_ERROR
envelope addressed to the module named in the malformed payload, or to
utils when no valid module name can be extracted. -/
theorem parse_failure_routing_spec (text : String) (parsed : Option Json)
    (parse_err : String) (sessions : List String)
    (route_result : Except String (Option ServerResponse))
    (hfail : parsed.bind parseModuleMessage = none) :
    (sessions ≠ [] →
        handle_text_message text parsed parse_err sessions route_result
          = [.ptyInput text])
    ∧ (sessions = [] →
        handle_text_message text parsed parse_err sessions route_result
          = [.text (create_parse_error_response (extract_module_from_json parsed)
              parse_err)])
    ∧ (∀ v m mt, parsed = some v → (v.get "module").bind Json.asStr = some m →
        moduleOfString m = some mt → extract_module_from_json parsed = mt)
    ∧ (((parsed.bind fun v => (v.get "module").bind Json.asStr).bind moduleOfString)
          = none → extract_module_from_json parsed = ModuleType.utils) := by
  refine ⟨?_, ?_, ?_, ?_⟩
  · intro hs
    have hsess : has_sessions sessions = true := by
      simp [has_sessions, List.isEmpty_iff, hs]
    unfold handle_text_message
    rw [hfail]
    rw [if_pos hsess]
  · intro hs
    subst hs
    unfold handle_text_message
    rw [hfail]
    rfl
  · intro v m mt hv hm hmt
    subst hv
    have hred : extract_module_from_json (some v) =
        match (v.get "module").bind Json.asStr with
        | some s => (moduleOfString s).getD ModuleType.utils
        | none => ModuleType.utils := rfl
    rw [hred, hm]
    show (moduleOfString m).getD ModuleType.utils = mt
    rw [hmt]
    rfl
  · intro hnone
    cases parsed with
    | none => rfl
    | some v =>
        have hred : extract_module_from_json (some v) =
            match (v.get "module").bind Json.asStr with
            | some s => (moduleOfString s).getD ModuleType.utils
            | none => ModuleType.utils := rfl
        rw [hred]
        cases hm : (v.get "module").bind Json.asStr with
        | none => rfl
        | some m =>
            have hnone2 : ((v.get "module").bind Json.asStr).bind moduleOfString
                = none := hnone
            rw [hm] at hnone2
            have hnone3 : moduleOfString m = none := hnone2
            show (moduleOfString m).getD ModuleType.utils = ModuleType.utils
            rw [hnone3]
            rfl

/-- Witness for C7: a payload naming module voice but lacking a type
field fails envelope parsing; with no PTY session the reply is the
PARSE_ERROR envelope. -/
theorem parse_failure_routing_spec_witness :
    ((some (Json.obj [("module", Json.str "voice")]) : Option Json).bind
        parseModuleMessage = none)
    ∧ handle_text_message "hello" (some (Json.obj [("module", Json.str "voice")]))
        "missing type" [] (.ok none)
        = [.text (create_parse_error_response
            (extract_module_from_json (some (Json.obj [("module", Json.str "voice")])))
            "missing type")] := by
  have hfail : (some (Json.obj [("module", Json.str "voice")]) : Option Json).bind
      parseModuleMessage = none := rfl
  exact ⟨hfail, (parse_failure_routing_spec "hello"
    (some (Json.obj [("module", Json.str "voice")])) "missing type" []
    (.ok none) hfail).2.1 rfl⟩

end SessionServer
